import Mathlib

/-!
Verification development for a SaaS-landing backend: a FastAPI service
(`main.py`, `schemas.py`) over a document store, with endpoints for auth
(register/login with SHA-256 password digests), a seeded blog, contact
intake and a `/test` diagnostic.  The document-store adapter
(`database.py`: `create_document`, `get_documents`, the `db` handle) is not
part of the given sources; its embedding below is modelled from the spec's
adapter contract.
-/

namespace Backend

/-! ## SHA-256 (embedding of `sha256` in `main.py`, which calls
`hashlib.sha256(text.encode("utf-8")).hexdigest()`) -/

/-- Truncate to a 32-bit word. -/
def w32 (n : Nat) : Nat := n % 4294967296

/-- Right-rotate a 32-bit word by `n` bits. -/
def rotr (x n : Nat) : Nat := x / 2 ^ n + x % 2 ^ n * 2 ^ (32 - n)

/-- Logical right shift. -/
def shr (x n : Nat) : Nat := x / 2 ^ n

/-- Bitwise complement within 32 bits. -/
def bnot32 (x : Nat) : Nat := x ^^^ 4294967295

def ch (e f g : Nat) : Nat := (e &&& f) ^^^ (bnot32 e &&& g)

def maj (a b c : Nat) : Nat := (a &&& b) ^^^ (a &&& c) ^^^ (b &&& c)

def bigSigma0 (a : Nat) : Nat := rotr a 2 ^^^ rotr a 13 ^^^ rotr a 22

def bigSigma1 (e : Nat) : Nat := rotr e 6 ^^^ rotr e 11 ^^^ rotr e 25

def smallSigma0 (x : Nat) : Nat := rotr x 7 ^^^ rotr x 18 ^^^ shr x 3

def smallSigma1 (x : Nat) : Nat := rotr x 17 ^^^ rotr x 19 ^^^ shr x 10

/-- The 64 SHA-256 round constants. -/
def sha256K : List Nat :=
  [1116352408, 1899447441, 3049323471, 3921009573, 961987163,
   1508970993, 2453635748, 2870763221, 3624381080, 310598401,
   607225278, 1426881987, 1925078388, 2162078206, 2614888103,
   3248222580, 3835390401, 4022224774, 264347078, 604807628,
   770255983, 1249150122, 1555081692, 1996064986, 2554220882,
   2821834349, 2952996808, 3210313671, 3336571891, 3584528711,
   113926993, 338241895, 666307205, 773529912, 1294757372,
   1396182291, 1695183700, 1986661051, 2177026350, 2456956037,
   2730485921, 2820302411, 3259730800, 3345764771, 3516065817,
   3600352804, 4094571909, 275423344, 430227734, 506948616,
   659060556, 883997877, 958139571, 1322822218, 1537002063,
   1747873779, 1955562222, 2024104815, 2227730452, 2361852424,
   2428436474, 2756734187, 3204031479, 3329325298]

/-- The initial SHA-256 hash state. -/
def sha256H0 : List Nat :=
  [1779033703, 3144134277, 1013904242, 2773480762,
   1359893119, 2600822924, 528734635, 1541459225]

/-- Pad a byte message per SHA-256: append `0x80`, zeros to 56 mod 64, then
the bit length as 8 big-endian bytes. -/
def sha256Pad (msg : List Nat) : List Nat :=
  let bitLen := msg.length * 8
  let zeros := (55 + 64 - msg.length % 64) % 64
  msg ++ [0x80] ++ List.replicate zeros 0 ++
    [bitLen / 2 ^ 56 % 256, bitLen / 2 ^ 48 % 256, bitLen / 2 ^ 40 % 256,
     bitLen / 2 ^ 32 % 256, bitLen / 2 ^ 24 % 256, bitLen / 2 ^ 16 % 256,
     bitLen / 2 ^ 8 % 256, bitLen % 256]

/-- Split into 64-byte chunks. -/
def chunks64 (l : List Nat) : List (List Nat) :=
  if h : l = [] then [] else
    l.take 64 :: chunks64 (l.drop 64)
termination_by l.length
decreasing_by
  simp only [List.length_drop]
  have : 0 < l.length := List.length_pos.mpr h
  omega

/-- Fold 4 big-endian bytes into a 32-bit word, 16 words per chunk. -/
def toWords : List Nat → List Nat
  | b0 :: b1 :: b2 :: b3 :: rest =>
      (b0 * 2 ^ 24 + b1 * 2 ^ 16 + b2 * 2 ^ 8 + b3) :: toWords rest
  | _ => []

/-- Extend the 16-word schedule to 64 words, pushing `count` further words. -/
def extendSchedule : Nat → List Nat → List Nat
  | 0, ws => ws
  | count + 1, ws =>
      let n := ws.length
      let w := w32 (smallSigma1 (ws.getD (n - 2) 0) + ws.getD (n - 7) 0 +
        smallSigma0 (ws.getD (n - 15) 0) + ws.getD (n - 16) 0)
      extendSchedule count (ws ++ [w])

/-- One compression round on the 8-word working state. -/
def sha256Round (st : List Nat) (kw : Nat × Nat) : List Nat :=
  match st with
  | [a, b, c, d, e, f, g, h] =>
      let t1 := w32 (h + bigSigma1 e + ch e f g + kw.1 + kw.2)
      let t2 := w32 (bigSigma0 a + maj a b c)
      [w32 (t1 + t2), a, b, c, w32 (d + t1), e, f, g]
  | other => other

/-- Process one 64-byte chunk against the running hash state. -/
def sha256Step (hs : List Nat) (chunk : List Nat) : List Nat :=
  let ws := extendSchedule 48 (toWords chunk)
  let final := (sha256K.zip ws).foldl sha256Round hs
  (hs.zip final).map fun p => w32 (p.1 + p.2)

/-- UTF-8 bytes of a string, as `Nat`s. -/
def strBytes (s : String) : List Nat := s.toUTF8.toList.map (·.toNat)

def hexChar (n : Nat) : Char :=
  if n < 10 then Char.ofNat (48 + n) else Char.ofNat (87 + n)

def byteHex (b : Nat) : List Char := [hexChar (b / 16), hexChar (b % 16)]

def wordBytes (w : Nat) : List Nat :=
  [w / 2 ^ 24 % 256, w / 2 ^ 16 % 256, w / 2 ^ 8 % 256, w % 256]

/-- `sha256` from `main.py`: hex digest of the UTF-8 encoding of `text`. -/
def sha256 (text : String) : String :=
  let hs := (chunks64 (sha256Pad (strBytes text))).foldl sha256Step sha256H0
  String.mk (((hs.map wordBytes).flatten.map byteHex).flatten)

/-! ## Document values and documents

Documents are JSON-like records; we embed them as association lists from
string keys to `Value`s (Python dicts have unique keys; `get?` takes the
first binding). -/

inductive Value where
  | vStr (s : String)
  | vNat (n : Nat)
  | vBool (b : Bool)
  | vStrList (l : List String)
  | vNone
deriving DecidableEq, Repr

abbrev Doc := List (String × Value)

/-- Python `d.get(k)` without default: `none` when the key is absent. -/
def dget? (d : Doc) (k : String) : Option Value :=
  (d.find? fun p => decide (p.1 = k)).map Prod.snd

/-- Python `d.get(k)`: `None` (here `Value.vNone`) when the key is absent. -/
def dgetV (d : Doc) (k : String) : Value := (dget? d k).getD Value.vNone

/-- Python `d.get(k, default)`: the default only when the key is absent. -/
def dgetD (d : Doc) (k : String) (df : Value) : Value := (dget? d k).getD df

/-- Python truthiness of an optional dict: `None` and `{}` are falsy. -/
def pyTruthy : Option Doc → Bool
  | none => false
  | some d => !d.isEmpty

/-- Python `str(...)` as applied to stored values (ids in this service are
strings, so on the reachable inputs this is the identity). -/
def pyStr : Value → String
  | .vStr s => s
  | .vNat n => toString n
  | .vBool b => if b then "True" else "False"
  | .vNone => "None"
  | .vStrList _ => "[...]"

/-! ## Document store

Modelled from the spec: the adapter (`database.py`, not among the given
sources) owns named collections of documents; `create_document` stamps
creation metadata and a generated unique id and appends the document;
`get_documents` returns up to `limit` documents matching an equality
filter in store order (we fix insertion order); `find_one` (pymongo) is
the first matching document. -/

structure Store where
  colls : List (String × List Doc)
  nextId : Nat
  now : Nat
deriving DecidableEq, Repr

/-- The documents of collection `c` (empty when the collection is absent). -/
def Store.getColl (s : Store) (c : String) : List Doc :=
  ((s.colls.find? fun p => decide (p.1 = c)).map Prod.snd).getD []

/-- Replace the binding of collection `c`, appending a new binding if absent. -/
def upsertColl : List (String × List Doc) → String → List Doc → List (String × List Doc)
  | [], c, l => [(c, l)]
  | (k, v) :: rest, c, l =>
      if k = c then (c, l) :: rest else (k, v) :: upsertColl rest c l

/-- A document matches a filter when every filter key is present with the
filter's value (Mongo equality filter; the empty filter matches all). -/
def docMatches (filter : Doc) (d : Doc) : Bool :=
  filter.all fun p => decide (dget? d p.1 = some p.2)

/-- Modelled from the spec: `create_document(collection, fields)` of the
missing `database.py` — stamps an `_id` (a fresh string id) and a
`created_at` timestamp, appends the document to the collection, and
returns the generated id. -/
def create_document (c : String) (fields : Doc) (s : Store) : String × Store :=
  let id := toString s.nextId
  let doc : Doc := ("_id", .vStr id) :: ("created_at", .vNat s.now) :: fields
  (id, { s with colls := upsertColl s.colls c (s.getColl c ++ [doc]),
                nextId := s.nextId + 1 })

/-- Modelled from the spec: `get_documents(collection, filter, limit)` of the
missing `database.py` — up to `limit` matching documents in store order. -/
def get_documents (c : String) (filter : Doc) (limit : Nat) (s : Store) : List Doc :=
  ((s.getColl c).filter (docMatches filter)).take limit

/-- pymongo `collection.find_one(filter)`: the first matching document. -/
def find_one (s : Store) (c : String) (filter : Doc) : Option Doc :=
  (s.getColl c).find? (docMatches filter)

/-! ## HTTP layer types -/

/-- `fastapi.HTTPException` as raised by the handlers. -/
structure HTTPException where
  status_code : Nat
  detail : String
deriving DecidableEq, Repr

/-- The JSON object returned by both `register` and `login`. -/
structure AuthResponse where
  id : String
  name : Value
  email : Value
  plan : Value
deriving DecidableEq, Repr

/-- The JSON object returned by `contact`. -/
structure ContactResponse where
  id : String
  status : String
deriving DecidableEq, Repr

/-! ## Auth endpoints (`main.py`) -/

/-- `POST /api/auth/register` (`register` in `main.py`): reject when a user
document with the email is found, else hash the password, store the user
and return id/name/email/plan.  The error path returns the store unchanged
(the exception is raised before any write). -/
def register (s : Store) (name email password : String) :
    Except HTTPException AuthResponse × Store :=
  let existing := find_one s "user" [("email", .vStr email)]
  if pyTruthy existing then
    (.error ⟨400, "Email already registered"⟩, s)
  else
    let user_doc : Doc :=
      [("name", .vStr name), ("email", .vStr email),
       ("password_hash", .vStr (sha256 password)),
       ("plan", .vStr "free"), ("is_active", .vBool true)]
    let res := create_document "user" user_doc s
    (.ok ⟨res.1, .vStr name, .vStr email, .vStr "free"⟩, res.2)

/-- `POST /api/auth/login` (`login` in `main.py`): look up the user by email;
fail 401 when missing or when the stored digest differs from the digest of
the supplied password; else answer from the stored document, defaulting the
plan to `"free"`. -/
def login (s : Store) (email password : String) :
    Except HTTPException AuthResponse :=
  let user := find_one s "user" [("email", .vStr email)]
  if !pyTruthy user ||
      decide (dgetV (user.getD []) "password_hash" ≠ .vStr (sha256 password)) then
    .error ⟨401, "Invalid credentials"⟩
  else
    let u := user.getD []
    .ok ⟨pyStr (dgetV u "_id"), dgetV u "name", dgetV u "email",
         dgetD u "plan" (.vStr "free")⟩

/-! ## Blog endpoints (`main.py`) -/

/-- The three fixed sample posts of `ensure_sample_blog_posts`, with
`published_at` stamped from the current clock (`datetime.utcnow()`). -/
def samplePosts (now : Nat) : List Doc :=
  [[("title", .vStr "Designing With Pastels: A Gentle UI Aesthetic"),
    ("slug", .vStr "designing-with-pastels"),
    ("excerpt", .vStr "How soft color palettes can increase trust and readability in fintech apps."),
    ("content", .vStr "<p>Pastels bring calm to complex financial interfaces...</p>"),
    ("author", .vStr "Team"),
    ("tags", .vStrList ["design", "ux"]),
    ("published_at", .vNat now)],
   [("title", .vStr "Pricing Psychology for SaaS"),
    ("slug", .vStr "pricing-psychology-saas"),
    ("excerpt", .vStr "Anchoring, decoys and how to present value tiers."),
    ("content", .vStr "<p>Great pricing pages tell a story of value...</p>"),
    ("author", .vStr "Team"),
    ("tags", .vStrList ["growth", "pricing"]),
    ("published_at", .vNat now)],
   [("title", .vStr "Frictionless Onboarding"),
    ("slug", .vStr "frictionless-onboarding"),
    ("excerpt", .vStr "Best practices for sign-up and authentication flows."),
    ("content", .vStr "<p>Every extra field reduces conversions...</p>"),
    ("author", .vStr "Team"),
    ("tags", .vStrList ["product", "auth"]),
    ("published_at", .vNat now)]]

/-- `ensure_sample_blog_posts` in `main.py`: if `count_documents({})` is 0,
insert the three sample posts via `create_document`. -/
def ensure_sample_blog_posts (s : Store) : Store :=
  let count := ((s.getColl "blogpost").filter (docMatches [])).length
  if count = 0 then
    (samplePosts s.now).foldl (fun st post => (create_document "blogpost" post st).2) s
  else s

/-- The list-view projection built inside `list_blog`'s loop: exactly the
fields title, slug, excerpt, author (defaulting to `"Team"`),
published_at and tags — no content. -/
def blogListItem (d : Doc) : Doc :=
  [("title", dgetV d "title"), ("slug", dgetV d "slug"),
   ("excerpt", dgetV d "excerpt"), ("author", dgetD d "author" (.vStr "Team")),
   ("published_at", dgetV d "published_at"), ("tags", dgetD d "tags" (.vStrList []))]

/-- `GET /api/blog` (`list_blog` in `main.py`): seed if empty, then list up
to `limit` posts in list-view shape.  The result is the `posts` array of
the response, paired with the store after seeding. -/
def list_blog (s : Store) (limit : Nat) : List Doc × Store :=
  let s1 := ensure_sample_blog_posts s
  let docs := get_documents "blogpost" [] limit s1
  (docs.map blogListItem, s1)

/-- `GET /api/blog/{slug}` (`get_blog` in `main.py`): find one post by exact
slug; 404 when missing, else the full record including content. -/
def get_blog (s : Store) (slug : String) : Except HTTPException Doc :=
  let doc := find_one s "blogpost" [("slug", .vStr slug)]
  if !pyTruthy doc then
    .error ⟨404, "Post not found"⟩
  else
    let d := doc.getD []
    .ok [("title", dgetV d "title"), ("slug", dgetV d "slug"),
         ("excerpt", dgetV d "excerpt"), ("content", dgetV d "content"),
         ("author", dgetD d "author" (.vStr "Team")),
         ("published_at", dgetV d "published_at"),
         ("tags", dgetD d "tags" (.vStrList []))]

/-! ## Contact endpoint (`main.py`) -/

/-- `POST /api/contact` (`contact` in `main.py`): store the message with
status `"new"` and answer with the new id and status `"received"`. -/
def contact (s : Store) (name email message : String) : ContactResponse × Store :=
  let doc : Doc :=
    [("name", .vStr name), ("email", .vStr email),
     ("message", .vStr message), ("status", .vStr "new")]
  let res := create_document "contactmessage" doc s
  (⟨res.1, "received"⟩, res.2)

/-! ## Diagnostic endpoint (`main.py`)

`GET /test` interrogates the live database handle; we embed the handle's
possible behaviours as a state: present or not, `DATABASE_URL` set or not,
what accessing `db.name` does, and what `db.list_collection_names()` does
(returns names or raises).  A raise from the collection listing is caught
by the inner `except`; any other raise is caught by the outer `except`. -/

/-- Outcome of the `hasattr(db, 'name')` / `db.name` access: the attribute
may be absent, yield a name, or raise (a non-AttributeError exception,
which `hasattr` propagates). -/
inductive NameAttr where
  | absent
  | val (s : String)
  | raises (msg : String)
deriving DecidableEq, Repr

/-- Outcome of `db.list_collection_names()`. -/
inductive CollNames where
  | ok (names : List String)
  | raises (msg : String)
deriving DecidableEq, Repr

/-- The database-handle state visible to `GET /test`. -/
structure DbState where
  present : Bool
  urlSet : Bool
  nameAttr : NameAttr
  collNames : CollNames
deriving DecidableEq, Repr

/-- The diagnostic response dict, field for field. -/
structure TestResponse where
  backend : String
  database : String
  database_url : String
  database_name : String
  connection_status : String
  collections : List String
deriving DecidableEq, Repr

/-- `GET /test` (`test_database` in `main.py`): build the response dict in
source order, catching storage exceptions and truncating their messages to
80 characters. -/
def test_database (st : DbState) : TestResponse :=
  let r0 : TestResponse :=
    ⟨"✅ Running", "❌ Not Available", "❌ Not Set", "❌ Not Set",
     "Not Connected", []⟩
  if st.present then
    let r1 := { r0 with database := "✅ Available",
                        database_url := if st.urlSet then "✅ Set" else "❌ Not Set" }
    match st.nameAttr with
    | .raises m => { r1 with database := "❌ Error: " ++ m.take 80 }
    | .absent =>
        let r2 := { r1 with database_name := "✅ Connected",
                            connection_status := "Connected" }
        match st.collNames with
        | .ok names =>
            { r2 with collections := names, database := "✅ Connected & Working" }
        | .raises m =>
            { r2 with database := "⚠️ Connected but Error: " ++ m.take 80 }
    | .val nm =>
        let r2 := { r1 with database_name := nm, connection_status := "Connected" }
        match st.collNames with
        | .ok names =>
            { r2 with collections := names, database := "✅ Connected & Working" }
        | .raises m =>
            { r2 with database := "⚠️ Connected but Error: " ++ m.take 80 }
  else r0

/-! ## Store lemmas -/

lemma find?_upsert_self (cs : List (String × List Doc)) (c : String) (l : List Doc) :
    (upsertColl cs c l).find? (fun p => decide (p.1 = c)) = some (c, l) := by
  induction cs with
  | nil => simp [upsertColl]
  | cons kv rest ih =>
      obtain ⟨k, v⟩ := kv
      by_cases hk : k = c
      · simp [upsertColl, hk]
      · simp [upsertColl, hk, ih]

lemma getColl_create_self (c : String) (fields : Doc) (s : Store) :
    ((create_document c fields s).2).getColl c =
      s.getColl c ++
        [("_id", .vStr (toString s.nextId)) :: ("created_at", .vNat s.now) :: fields] := by
  simp [create_document, Store.getColl, find?_upsert_self]

lemma find?_upsert_ne (cs : List (String × List Doc)) (c c' : String) (l : List Doc)
    (h : c' ≠ c) :
    (upsertColl cs c l).find? (fun p => decide (p.1 = c')) =
      cs.find? (fun p => decide (p.1 = c')) := by
  induction cs with
  | nil => simp [upsertColl, h, Ne.symm h]
  | cons kv rest ih =>
      obtain ⟨k, v⟩ := kv
      by_cases hk : k = c
      · subst hk
        simp [upsertColl, Ne.symm h]
      · by_cases hk' : k = c'
        · simp [upsertColl, hk, hk', h]
        · simp [upsertColl, hk, hk', ih]

lemma getColl_create_ne (c c' : String) (fields : Doc) (s : Store) (h : c' ≠ c) :
    ((create_document c fields s).2).getColl c' = s.getColl c' := by
  simp [create_document, Store.getColl, find?_upsert_ne _ _ _ _ h]

lemma dget?_cons (k : String) (v : Value) (d : Doc) (k' : String) :
    dget? ((k, v) :: d) k' = if k = k' then some v else dget? d k' := by
  by_cases hk : k = k'
  · simp [dget?, hk]
  · simp [dget?, hk]

lemma dget?_nil (k : String) : dget? [] k = none := rfl

lemma create_document_nextId (c : String) (fields : Doc) (s : Store) :
    ((create_document c fields s).2).nextId = s.nextId + 1 := rfl

lemma create_document_now (c : String) (fields : Doc) (s : Store) :
    ((create_document c fields s).2).now = s.now := rfl

lemma docMatches_nil (d : Doc) : docMatches [] d = true := rfl

lemma filter_docMatches_nil (l : List Doc) :
    l.filter (docMatches []) = l := by
  simp [docMatches]

/-- The user document inserted by a successful `register`. -/
def registeredDoc (s : Store) (name email password : String) : Doc :=
  [("_id", .vStr (toString s.nextId)), ("created_at", .vNat s.now),
   ("name", .vStr name), ("email", .vStr email),
   ("password_hash", .vStr (sha256 password)),
   ("plan", .vStr "free"), ("is_active", .vBool true)]

lemma find_one_key_none (s : Store) (c k : String) (v : Value)
    (h : ∀ d ∈ s.getColl c, dget? d k ≠ some v) :
    find_one s c [(k, v)] = none := by
  rw [find_one, List.find?_eq_none]
  intro d hd
  simp only [docMatches, List.all_cons, List.all_nil, Bool.and_true,
    decide_eq_true_eq]
  exact h d hd

lemma find_one_email_none (s : Store) (email : String)
    (h : ∀ d ∈ s.getColl "user", dget? d "email" ≠ some (.vStr email)) :
    find_one s "user" [("email", .vStr email)] = none :=
  find_one_key_none s "user" "email" (.vStr email) h

lemma register_fresh (s : Store) (name email password : String)
    (h : ∀ d ∈ s.getColl "user", dget? d "email" ≠ some (.vStr email)) :
    register s name email password =
      (.ok ⟨toString s.nextId, .vStr name, .vStr email, .vStr "free"⟩,
       (create_document "user"
         [("name", .vStr name), ("email", .vStr email),
          ("password_hash", .vStr (sha256 password)),
          ("plan", .vStr "free"), ("is_active", .vBool true)] s).2) := by
  rw [register]
  simp [find_one_email_none s email h, pyTruthy, create_document]

/-- The three blogpost documents as stored by seeding on an empty
collection: the samples stamped with fresh ids and the creation clock. -/
def seededDocs (s : Store) : List Doc :=
  [("_id", .vStr (toString s.nextId)) :: ("created_at", .vNat s.now) ::
     (samplePosts s.now).getD 0 [],
   ("_id", .vStr (toString (s.nextId + 1))) :: ("created_at", .vNat s.now) ::
     (samplePosts s.now).getD 1 [],
   ("_id", .vStr (toString (s.nextId + 2))) :: ("created_at", .vNat s.now) ::
     (samplePosts s.now).getD 2 []]

lemma ensure_empty_getColl (s : Store) (h : s.getColl "blogpost" = []) :
    ensure_sample_blog_posts s =
      { s with
          colls := (create_document "blogpost" ((samplePosts s.now).getD 2 [])
            (create_document "blogpost" ((samplePosts s.now).getD 1 [])
              (create_document "blogpost" ((samplePosts s.now).getD 0 []) s).2).2).2.colls,
          nextId := s.nextId + 3 } ∧
    (ensure_sample_blog_posts s).getColl "blogpost" = seededDocs s := by
  rw [ensure_sample_blog_posts]
  rw [h]
  constructor
  · rfl
  · show Store.getColl
      (create_document "blogpost" _ (create_document "blogpost" _
        (create_document "blogpost" _ s).2).2).2 "blogpost" = seededDocs s
    rw [getColl_create_self, getColl_create_self, getColl_create_self, h]
    simp [seededDocs, samplePosts, create_document, Nat.add_assoc]

lemma ensure_nonempty (s : Store) (h : s.getColl "blogpost" ≠ []) :
    ensure_sample_blog_posts s = s := by
  rw [ensure_sample_blog_posts]
  rw [filter_docMatches_nil]
  simp [List.length_eq_zero, h]

/-! ## Claim theorems -/

/-- C1: Register/login round trip — on a store containing no user with the
given email, `register` succeeds, and a subsequent `login` with the same
email and password succeeds and returns the same id, name, email and plan
that `register` returned. -/
theorem register_login_roundtrip (s : Store) (name email password : String)
    (h : ∀ d ∈ s.getColl "user", dget? d "email" ≠ some (.vStr email)) :
    ∃ resp : AuthResponse,
      (register s name email password).1 = .ok resp ∧
      login (register s name email password).2 email password = .ok resp := by
  refine ⟨⟨toString s.nextId, .vStr name, .vStr email, .vStr "free"⟩, ?_, ?_⟩
  · rw [register_fresh s name email password h]
  · have hcoll : ((register s name email password).2).getColl "user" =
        s.getColl "user" ++ [registeredDoc s name email password] := by
      rw [register_fresh s name email password h, getColl_create_self]
      rfl
    have hfo : find_one (register s name email password).2 "user"
        [("email", .vStr email)] = some (registeredDoc s name email password) := by
      rw [find_one, hcoll, List.find?_append]
      have h1 : (s.getColl "user").find?
          (docMatches [("email", .vStr email)]) = none :=
        find_one_email_none s email h
      rw [h1, Option.none_or]
      simp [docMatches, registeredDoc, dget?]
    rw [login]
    simp only [hfo]
    simp [pyTruthy, registeredDoc, dgetV, dgetD, dget?, pyStr]

/-- Witness for C1 at a concrete input: the empty store, with concrete
name, email and password. -/
theorem register_login_roundtrip_witness :
    ∃ resp : AuthResponse,
      (register ⟨[], 0, 0⟩ "Ada" "a@b.co" "pw").1 = .ok resp ∧
      login (register ⟨[], 0, 0⟩ "Ada" "a@b.co" "pw").2 "a@b.co" "pw" = .ok resp :=
  register_login_roundtrip ⟨[], 0, 0⟩ "Ada" "a@b.co" "pw"
    (by simp [Store.getColl])

/-- C2: Duplicate-email rejection — when a user document with the email is
already present, `register` fails with HTTP 400; on a fresh email it
succeeds, returns the new id, name, email and plan, and stores the user
with plan `"free"` and `is_active = true`. -/
theorem register_duplicate_and_fresh (s : Store) (name email password : String) :
    ((∃ d ∈ s.getColl "user", dget? d "email" = some (.vStr email)) →
      (register s name email password).1 = .error ⟨400, "Email already registered"⟩) ∧
    ((∀ d ∈ s.getColl "user", dget? d "email" ≠ some (.vStr email)) →
      (register s name email password).1 =
        .ok ⟨toString s.nextId, .vStr name, .vStr email, .vStr "free"⟩ ∧
      ∃ d ∈ ((register s name email password).2).getColl "user",
        dget? d "name" = some (.vStr name) ∧
        dget? d "email" = some (.vStr email) ∧
        dget? d "plan" = some (.vStr "free") ∧
        dget? d "is_active" = some (.vBool true)) := by
  constructor
  · rintro ⟨d, hd, hmatch⟩
    have hsome : (find_one s "user" [("email", .vStr email)]).isSome := by
      rw [find_one, List.find?_isSome]
      exact ⟨d, hd, by simpa [docMatches] using hmatch⟩
    obtain ⟨d', hd'⟩ := Option.isSome_iff_exists.mp hsome
    have hm' : docMatches [("email", .vStr email)] d' = true := by
      rw [find_one] at hd'
      exact List.find?_some hd'
    have hne : d' ≠ [] := by
      intro hnil
      simp [docMatches, hnil, dget?] at hm'
    rw [register]
    simp [hd', pyTruthy, List.isEmpty_iff, hne]
  · intro h
    rw [register_fresh s name email password h]
    refine ⟨rfl, registeredDoc s name email password, ?_, by simp [registeredDoc, dget?]⟩
    rw [getColl_create_self]
    simp [registeredDoc]

/-- Witness for C2 at concrete inputs: the duplicate branch on a store
already holding the email, the fresh branch on the empty store. -/
theorem register_duplicate_and_fresh_witness :
    (register ⟨[("user", [[("email", .vStr "x@y.z")]])], 1, 0⟩ "N" "x@y.z" "pw").1 =
      .error ⟨400, "Email already registered"⟩ ∧
    (register ⟨[], 0, 0⟩ "N" "x@y.z" "pw").1 =
      .ok ⟨"0", .vStr "N", .vStr "x@y.z", .vStr "free"⟩ :=
  ⟨(register_duplicate_and_fresh ⟨[("user", [[("email", .vStr "x@y.z")]])], 1, 0⟩
      "N" "x@y.z" "pw").1
      ⟨[("email", .vStr "x@y.z")], by simp [Store.getColl], by simp [dget?]⟩,
   ((register_duplicate_and_fresh ⟨[], 0, 0⟩ "N" "x@y.z" "pw").2
      (by simp [Store.getColl])).1⟩

/-- C3: Unified login failure — `login` fails with the same HTTP 401
`Invalid credentials` error both when no user with the email exists and
when the stored digest differs from the digest of the supplied password. -/
theorem login_unified_failure (s : Store) (email password : String) :
    ((∀ d ∈ s.getColl "user", dget? d "email" ≠ some (.vStr email)) →
      login s email password = .error ⟨401, "Invalid credentials"⟩) ∧
    (∀ u, find_one s "user" [("email", .vStr email)] = some u →
      dgetV u "password_hash" ≠ .vStr (sha256 password) →
      login s email password = .error ⟨401, "Invalid credentials"⟩) := by
  constructor
  · intro h
    rw [login]
    simp [find_one_email_none s email h, pyTruthy]
  · intro u hu hne
    rw [login]
    simp [hu, hne]

/-- Witness for C3 at concrete inputs: the missing-user branch on the empty
store, and the wrong-digest branch on a store whose user lacks a stored
digest (so the comparison fails by constructor). -/
theorem login_unified_failure_witness :
    login ⟨[], 0, 0⟩ "a@b.co" "pw" = .error ⟨401, "Invalid credentials"⟩ ∧
    login ⟨[("user", [[("email", .vStr "a@b.co")]])], 1, 0⟩ "a@b.co" "pw" =
      .error ⟨401, "Invalid credentials"⟩ :=
  ⟨(login_unified_failure ⟨[], 0, 0⟩ "a@b.co" "pw").1 (by simp [Store.getColl]),
   (login_unified_failure ⟨[("user", [[("email", .vStr "a@b.co")]])], 1, 0⟩
      "a@b.co" "pw").2 [("email", .vStr "a@b.co")] rfl
      (by simp [dgetV, dget?])⟩

/-- C9: Register atomicity on failure — whenever `register` fails, the error
is the duplicate-email 400 and the store is returned unchanged: the
duplicate check precedes the insert. -/
theorem register_error_store_unchanged (s : Store) (name email password : String)
    (e : HTTPException) (h : (register s name email password).1 = .error e) :
    (register s name email password).2 = s ∧
    e = ⟨400, "Email already registered"⟩ := by
  rw [register] at h ⊢
  by_cases ht : pyTruthy (find_one s "user" [("email", .vStr email)])
  · simp [ht] at h ⊢
    exact h.symm
  · simp [ht] at h

/-- Witness for C9 at a concrete input: a duplicate registration leaves the
store exactly as it was. -/
theorem register_error_store_unchanged_witness :
    (register ⟨[("user", [[("email", .vStr "x@y.z")]])], 1, 0⟩ "N" "x@y.z" "pw").2 =
      ⟨[("user", [[("email", .vStr "x@y.z")]])], 1, 0⟩ :=
  (register_error_store_unchanged ⟨[("user", [[("email", .vStr "x@y.z")]])], 1, 0⟩
    "N" "x@y.z" "pw" ⟨400, "Email already registered"⟩ rfl).1

/-- C4: Blog seeding and its idempotence — on an empty blogpost collection,
`GET /api/blog` (default limit 6) inserts exactly the three fixed sample
posts with pairwise distinct slugs and returns exactly their list views; a
second call inserts nothing and returns the same response and store. -/
theorem blog_seed_and_idempotence (s : Store) (h : s.getColl "blogpost" = []) :
    (list_blog s 6).1 = (samplePosts s.now).map blogListItem ∧
    (list_blog s 6).1.length = 3 ∧
    ((list_blog s 6).1.map (fun d => dgetV d "slug")).Nodup ∧
    ((list_blog s 6).2).getColl "blogpost" = seededDocs s ∧
    list_blog (list_blog s 6).2 6 = list_blog s 6 := by
  obtain ⟨-, hcoll⟩ := ensure_empty_getColl s h
  have h1 : list_blog s 6 = ((seededDocs s).map blogListItem, ensure_sample_blog_posts s) := by
    simp only [list_blog, get_documents]
    rw [hcoll, filter_docMatches_nil]
    simp [seededDocs]
  have hmap : (seededDocs s).map blogListItem = (samplePosts s.now).map blogListItem := by
    simp [seededDocs, samplePosts, blogListItem, dgetV, dgetD, dget?]
  refine ⟨by rw [h1]; exact hmap, by rw [h1, hmap]; rfl, ?_, by rw [h1]; exact hcoll, ?_⟩
  · rw [h1, hmap]
    simp [samplePosts, blogListItem, dgetV, dget?]
  · have hne : (ensure_sample_blog_posts s).getColl "blogpost" ≠ [] := by
      rw [hcoll]
      simp [seededDocs]
    have h2 : ensure_sample_blog_posts (ensure_sample_blog_posts s) =
        ensure_sample_blog_posts s := ensure_nonempty _ hne
    rw [h1]
    simp only [list_blog, get_documents, h2]
    rw [hcoll, filter_docMatches_nil]
    simp [seededDocs]

/-- Witness for C4 at a concrete input: a store with no blogpost
collection at all. -/
theorem blog_seed_and_idempotence_witness :
    (list_blog ⟨[], 0, 0⟩ 6).1 = (samplePosts 0).map blogListItem ∧
    (list_blog ⟨[], 0, 0⟩ 6).1.length = 3 ∧
    ((list_blog ⟨[], 0, 0⟩ 6).1.map (fun d => dgetV d "slug")).Nodup ∧
    ((list_blog ⟨[], 0, 0⟩ 6).2).getColl "blogpost" = seededDocs ⟨[], 0, 0⟩ ∧
    list_blog (list_blog ⟨[], 0, 0⟩ 6).2 6 = list_blog ⟨[], 0, 0⟩ 6 :=
  blog_seed_and_idempotence ⟨[], 0, 0⟩ (by simp [Store.getColl])

/-- C5: Blog list shape and limit — `GET /api/blog` returns at most `limit`
posts; every returned item exposes exactly the fields title, slug, excerpt,
author, published_at and tags and never `content`; the author field of a
list item defaults to `"Team"` when the stored document lacks an author. -/
theorem list_blog_shape (s : Store) (limit : Nat) :
    (list_blog s limit).1.length ≤ limit ∧
    (∀ item ∈ (list_blog s limit).1,
      item.map Prod.fst = ["title", "slug", "excerpt", "author", "published_at", "tags"] ∧
      dget? item "content" = none) ∧
    (∀ d : Doc, dget? d "author" = none →
      dgetV (blogListItem d) "author" = .vStr "Team") := by
  refine ⟨?_, ?_, ?_⟩
  · simp only [list_blog, List.length_map, get_documents]
    exact List.length_take_le _ _
  · intro item hitem
    simp only [list_blog, List.mem_map] at hitem
    obtain ⟨d, -, rfl⟩ := hitem
    exact ⟨rfl, rfl⟩
  · intro d hd
    simp [blogListItem, dgetV, dgetD, dget?_cons, hd]

/-- Witness for C5 at a concrete input: a store holding a single post that
lacks an author. -/
theorem list_blog_shape_witness :
    (list_blog ⟨[("blogpost", [[("slug", .vStr "s")]])], 0, 0⟩ 6).1.length ≤ 6 ∧
    ((blogListItem [("slug", .vStr "s")]).map Prod.fst =
      ["title", "slug", "excerpt", "author", "published_at", "tags"] ∧
      dget? (blogListItem [("slug", .vStr "s")]) "content" = none) ∧
    dgetV (blogListItem [("slug", .vStr "s")]) "author" = .vStr "Team" :=
  ⟨(list_blog_shape ⟨[("blogpost", [[("slug", .vStr "s")]])], 0, 0⟩ 6).1,
   (list_blog_shape ⟨[("blogpost", [[("slug", .vStr "s")]])], 0, 0⟩ 6).2.1
     (blogListItem [("slug", .vStr "s")]) (by decide),
   (list_blog_shape ⟨[("blogpost", [[("slug", .vStr "s")]])], 0, 0⟩ 6).2.2
     [("slug", .vStr "s")] rfl⟩

/-- C6: Blog lookup by slug — `GET /api/blog/{slug}` fails with HTTP 404
when no blogpost document has the requested slug, and otherwise returns the
full record of a post with exactly that slug, including the content body. -/
theorem get_blog_by_slug (s : Store) (slug : String) :
    ((∀ d ∈ s.getColl "blogpost", dget? d "slug" ≠ some (.vStr slug)) →
      get_blog s slug = .error ⟨404, "Post not found"⟩) ∧
    (∀ d, find_one s "blogpost" [("slug", .vStr slug)] = some d →
      dget? d "slug" = some (.vStr slug) ∧
      get_blog s slug =
        .ok [("title", dgetV d "title"), ("slug", dgetV d "slug"),
             ("excerpt", dgetV d "excerpt"), ("content", dgetV d "content"),
             ("author", dgetD d "author" (.vStr "Team")),
             ("published_at", dgetV d "published_at"),
             ("tags", dgetD d "tags" (.vStrList []))]) := by
  constructor
  · intro h
    rw [get_blog]
    simp [find_one_key_none s "blogpost" "slug" (.vStr slug) h, pyTruthy]
  · intro d hd
    have hm : docMatches [("slug", .vStr slug)] d = true := by
      rw [find_one] at hd
      exact List.find?_some hd
    have hslug : dget? d "slug" = some (.vStr slug) := by
      simpa [docMatches] using hm
    have hne : d ≠ [] := by
      intro hnil
      simp [hnil, dget?] at hslug
    refine ⟨hslug, ?_⟩
    rw [get_blog]
    simp [hd, pyTruthy, List.isEmpty_iff, hne]

/-- Witness for C6 at concrete inputs: an unknown slug on the empty store,
and a stored post fetched by its exact slug. -/
theorem get_blog_by_slug_witness :
    get_blog ⟨[], 0, 0⟩ "nope" = .error ⟨404, "Post not found"⟩ ∧
    get_blog ⟨[("blogpost", [[("slug", .vStr "s"), ("content", .vStr "body")]])], 1, 0⟩ "s" =
      .ok [("title", .vNone), ("slug", .vStr "s"), ("excerpt", .vNone),
           ("content", .vStr "body"), ("author", .vStr "Team"),
           ("published_at", .vNone), ("tags", .vStrList [])] :=
  ⟨(get_blog_by_slug ⟨[], 0, 0⟩ "nope").1 (by simp [Store.getColl]),
   ((get_blog_by_slug ⟨[("blogpost", [[("slug", .vStr "s"), ("content", .vStr "body")]])], 1, 0⟩
     "s").2 [("slug", .vStr "s"), ("content", .vStr "body")] rfl).2⟩

/-- C8: Contact intake — `POST /api/contact` appends exactly one
contactmessage document whose name, email, message equal the payload's and
whose status is `"new"`, and returns the new id with status `"received"`,
which differs from the stored status. -/
theorem contact_intake (s : Store) (name email message : String) :
    (contact s name email message).1 = ⟨toString s.nextId, "received"⟩ ∧
    ((contact s name email message).2).getColl "contactmessage" =
      s.getColl "contactmessage" ++
        [[("_id", .vStr (toString s.nextId)), ("created_at", .vNat s.now),
          ("name", .vStr name), ("email", .vStr email),
          ("message", .vStr message), ("status", .vStr "new")]] ∧
    (∀ d : Doc, d = [("_id", .vStr (toString s.nextId)), ("created_at", .vNat s.now),
          ("name", .vStr name), ("email", .vStr email),
          ("message", .vStr message), ("status", .vStr "new")] →
      dget? d "status" = some (.vStr "new") ∧ dget? d "name" = some (.vStr name) ∧
      dget? d "email" = some (.vStr email) ∧ dget? d "message" = some (.vStr message)) ∧
    (contact s name email message).1.status ≠ "new" := by
  refine ⟨rfl, ?_, ?_, by simp [contact, create_document]⟩
  · rw [contact, getColl_create_self]
  · rintro d rfl
    refine ⟨?_, ?_, ?_, ?_⟩ <;> simp [dget?_cons]

/-- Witness for C8 at a concrete input, exercising the stored-field clause
of the theorem on the inserted document. -/
theorem contact_intake_witness :
    (contact ⟨[], 5, 9⟩ "N" "n@m.o" "hello").1 = ⟨"5", "received"⟩ ∧
    dget? [("_id", .vStr "5"), ("created_at", .vNat 9), ("name", .vStr "N"),
        ("email", .vStr "n@m.o"), ("message", .vStr "hello"),
        ("status", .vStr "new")] "status" = some (.vStr "new") :=
  ⟨(contact_intake ⟨[], 5, 9⟩ "N" "n@m.o" "hello").1,
   ((contact_intake ⟨[], 5, 9⟩ "N" "n@m.o" "hello").2.2.1 _ rfl).1⟩

/-- C7: Diagnostic endpoint total — `GET /test` is a total function of the
database state; when the `db.name` access raises, or when
`list_collection_names` raises, the response's database field carries the
error message truncated to its first 80 characters, never more. -/
theorem test_database_total (st : DbState) (m : String) :
    (st.present = true → st.nameAttr = .raises m →
      (test_database st).database = "❌ Error: " ++ m.take 80) ∧
    (st.present = true → (∀ m', st.nameAttr ≠ .raises m') →
      st.collNames = .raises m →
      (test_database st).database = "⚠️ Connected but Error: " ++ m.take 80) ∧
    (m.take 80).length ≤ 80 := by
  obtain ⟨p, u, na, cn⟩ := st
  refine ⟨?_, ?_, ?_⟩
  · rintro rfl rfl
    simp [test_database]
  · rintro rfl hna rfl
    cases na with
    | absent => simp [test_database]
    | val nm => simp [test_database]
    | raises m' => exact absurd rfl (hna m')
  · rw [String.take_eq]
    simp only [String.length]
    simpa using Nat.min_le_left 80 m.data.length

/-- Witness for C7 at concrete inputs: one state whose name access raises,
one whose collection listing raises. -/
theorem test_database_total_witness :
    (test_database ⟨true, false, .raises "boom", .ok []⟩).database =
      "❌ Error: " ++ "boom".take 80 ∧
    (test_database ⟨true, true, .absent, .raises "kaboom"⟩).database =
      "⚠️ Connected but Error: " ++ "kaboom".take 80 :=
  ⟨(test_database_total ⟨true, false, .raises "boom", .ok []⟩ "boom").1 rfl rfl,
   (test_database_total ⟨true, true, .absent, .raises "kaboom"⟩ "kaboom").2.1 rfl
     (fun _ h => nomatch h) rfl⟩

/-- C10: Login plan default — when the stored user document matching the
email has no `plan` field and the stored digest matches, `login` succeeds
with plan `"free"`, taking id, name and email from the stored document. -/
theorem login_plan_default (s : Store) (email password : String) (u : Doc)
    (hu : find_one s "user" [("email", .vStr email)] = some u)
    (hhash : dgetV u "password_hash" = .vStr (sha256 password))
    (hplan : dget? u "plan" = none) :
    login s email password =
      .ok ⟨pyStr (dgetV u "_id"), dgetV u "name", dgetV u "email", .vStr "free"⟩ := by
  have hm : docMatches [("email", .vStr email)] u = true := by
    rw [find_one] at hu
    exact List.find?_some hu
  have hne : u ≠ [] := by
    intro hnil
    simp [docMatches, hnil, dget?] at hm
  rw [login]
  simp [hu, pyTruthy, List.isEmpty_iff, hne, hhash, dgetD, hplan]

/-- Witness for C10 at a concrete input: a stored user without a `plan`
field logs in with plan `"free"`. -/
theorem login_plan_default_witness :
    login ⟨[("user", [[("_id", .vStr "7"), ("email", .vStr "u@v.w"),
        ("name", .vStr "U"), ("password_hash", .vStr (sha256 "pw"))]])], 8, 0⟩
      "u@v.w" "pw" =
      .ok ⟨"7", .vStr "U", .vStr "u@v.w", .vStr "free"⟩ :=
  login_plan_default
    ⟨[("user", [[("_id", .vStr "7"), ("email", .vStr "u@v.w"),
        ("name", .vStr "U"), ("password_hash", .vStr (sha256 "pw"))]])], 8, 0⟩
    "u@v.w" "pw"
    [("_id", .vStr "7"), ("email", .vStr "u@v.w"),
     ("name", .vStr "U"), ("password_hash", .vStr (sha256 "pw"))]
    rfl rfl rfl

end Backend
